import Mathlib

/-!
# Verification of `pixoo64-home-assistant-album-art`

Shallow embedding of the display-composition core of the Pixoo64 album-art
integration, together with proofs about the behaviour claimed in its
specification.  Each definition mirrors a function of the Python source
(`custom_components/pixoo64_album_art/…`); the doc comment of a definition
names the function it embeds.
-/

namespace Pixoo

/-! ## Python string primitives

The configuration code works on Python strings via `str.lower`, substring
containment (`kw in m`) and equality.  We model strings as Lean `String`s and
mirror the ASCII behaviour of these primitives (all keywords and mode names in
the source are ASCII). -/

/-- Models Python `str.lower` on one character, for the ASCII range (all
display-mode keywords and mode names in the source are ASCII). -/
def pyToLower (c : Char) : Char :=
  if 65 ≤ c.toNat ∧ c.toNat ≤ 90 then Char.ofNat (c.toNat + 32) else c

/-- Models Python `s.lower()` for ASCII strings. -/
def pyLower (s : String) : String :=
  String.mk (s.data.map pyToLower)

/-- Substring containment on character lists: helper for `pyIn`. -/
def containsSub (needle : List Char) : List Char → Bool
  | [] => needle.isEmpty
  | c :: t => needle.isPrefixOf (c :: t) || containsSub needle t

/-- Models the Python expression `needle in haystack` on strings. -/
def pyIn (needle hay : String) : Bool :=
  containsSub needle.data hay.data

/-! ## `Config._apply_display_mode_settings` (config.py, lines 177-249)

The feature flags the method writes, and the persisted "original" settings it
reads, are modelled as explicit structures with the source's attribute names. -/

/-- The operational feature flags set by `Config._apply_display_mode_settings`. -/
structure DisplayFlags where
  pixoo_show_lyrics : Bool
  pixoo_spotify_slide : Bool
  pixoo_special_mode : Bool
  pixoo_show_clock : Bool
  pixoo_temperature_enabled : Bool
  pixoo_show_text_enabled : Bool
  pixoo_text_background_enabled : Bool
  force_ai : Bool
  ai_fallback_model : String
  pixoo_burned : Bool
  special_mode_spotify_slider : Bool
  deriving Repr, DecidableEq

/-- The persisted "original" settings read by `_apply_display_mode_settings`
(config.py, lines 62-79). -/
structure OriginalSettings where
  original_pixoo_show_lyrics : Bool
  original_pixoo_spotify_slide : Bool
  original_pixoo_special_mode : Bool
  original_pixoo_show_clock : Bool
  original_pixoo_temperature_enabled : Bool
  original_pixoo_show_text_enabled : Bool
  original_pixoo_text_background_enabled : Bool
  original_force_ai : Bool
  original_ai_fallback_model : String
  original_pixoo_burned : Bool
  deriving Repr, DecidableEq

/-- Embeds `Config._apply_display_mode_settings` (config.py, lines 177-249).

* `m = mode_string.lower()` (line 181).
* `m == "default"` (lines 186-196): every flag is copied from the originals.
* otherwise (lines 197-220): all flags start `False` and each
  `if kw in m: flag = True` line turns the cleared flag into the containment
  test for its keyword.
* lines 222-224: the AI model sub-choice applies only when `force_ai` is set.
* lines 228-239: the named full-override modes `"clean"`, `"album art only"`,
  `"lyrics only"`.
* lines 242-243: `pixoo_text_background_enabled` is cleared unless clock,
  temperature, or (outside the two "only" modes) item-list text is active.
* lines 246-248: the combined `special_mode_spotify_slider` flag. -/
def applyDisplayModeSettings (orig : OriginalSettings) (mode_string : String) :
    DisplayFlags :=
  let m := pyLower mode_string
  let f :=
    if m = "default" then
      { pixoo_show_lyrics := orig.original_pixoo_show_lyrics
        pixoo_spotify_slide := orig.original_pixoo_spotify_slide
        pixoo_special_mode := orig.original_pixoo_special_mode
        pixoo_show_clock := orig.original_pixoo_show_clock
        pixoo_temperature_enabled := orig.original_pixoo_temperature_enabled
        pixoo_show_text_enabled := orig.original_pixoo_show_text_enabled
        pixoo_text_background_enabled := orig.original_pixoo_text_background_enabled
        force_ai := orig.original_force_ai
        ai_fallback_model := orig.original_ai_fallback_model
        pixoo_burned := orig.original_pixoo_burned
        special_mode_spotify_slider := false }
    else
      -- clean slate (lines 200-209) combined with the keyword lines 212-220
      let f1 : DisplayFlags :=
        { pixoo_show_lyrics := pyIn "lyrics" m
          pixoo_spotify_slide := pyIn "spotify slider" m
          pixoo_special_mode := pyIn "special mode" m
          pixoo_show_clock := pyIn "clock" m
          pixoo_temperature_enabled := pyIn "temperature" m
          pixoo_show_text_enabled := pyIn "text" m
          pixoo_text_background_enabled := pyIn "background" m
          force_ai := pyIn "ai generation" m
          ai_fallback_model := orig.original_ai_fallback_model
          pixoo_burned := pyIn "burned" m
          special_mode_spotify_slider := false }
      -- AI model sub-choice (lines 222-224)
      let f2 : DisplayFlags :=
        { f1 with ai_fallback_model :=
            if f1.force_ai then
              if pyIn "flux" m then "flux"
              else if pyIn "turbo" m then "turbo"
              else f1.ai_fallback_model
            else f1.ai_fallback_model }
      -- named full-override modes (lines 228-239)
      if m = "clean" then f2
      else if m = "album art only" then
        { f2 with pixoo_show_lyrics := false, pixoo_show_clock := false
                  pixoo_temperature_enabled := false, pixoo_show_text_enabled := false
                  pixoo_text_background_enabled := false, pixoo_special_mode := false
                  pixoo_spotify_slide := false, pixoo_burned := false
                  force_ai := false }
      else if m = "lyrics only" then
        { f2 with pixoo_show_lyrics := true, pixoo_spotify_slide := false
                  pixoo_special_mode := false, pixoo_show_clock := false
                  pixoo_temperature_enabled := false, pixoo_show_text_enabled := false
                  pixoo_text_background_enabled := false, force_ai := false
                  pixoo_burned := false }
      else f2
  -- post-condition on the text background (lines 242-243)
  let f :=
    if ¬(f.pixoo_show_clock ∨ f.pixoo_temperature_enabled ∨
          (f.pixoo_show_text_enabled ∧ ¬(m = "lyrics only" ∨ m = "album art only"))) then
      { f with pixoo_text_background_enabled := false }
    else f
  -- combined flag (lines 246-248)
  { f with special_mode_spotify_slider :=
      f.pixoo_spotify_slide && f.pixoo_special_mode && f.pixoo_show_text_enabled }

/-- Full characterisation of the `pixoo_show_lyrics` flag produced by
`_apply_display_mode_settings`. -/
theorem show_lyrics_eq (orig : OriginalSettings) (mode : String) :
    (applyDisplayModeSettings orig mode).pixoo_show_lyrics =
      (if pyLower mode = "default" then orig.original_pixoo_show_lyrics
       else if pyLower mode = "album art only" then false
       else if pyLower mode = "lyrics only" then true
       else pyIn "lyrics" (pyLower mode)) := by
  unfold applyDisplayModeSettings
  simp only [apply_ite DisplayFlags.pixoo_show_lyrics,
    apply_ite DisplayFlags.pixoo_show_clock,
    apply_ite DisplayFlags.pixoo_temperature_enabled,
    apply_ite DisplayFlags.pixoo_show_text_enabled]
  split_ifs <;> simp_all

/-- C1: for every mode string containing the keyword `"lyrics"`
(case-insensitively) that is not one of the full-override "only" modes,
`_apply_display_mode_settings` sets `pixoo_show_lyrics`; and for the mode
string `"Album Art Only"`, every other feature flag is false. -/
theorem lyrics_keyword_and_album_art_only
    (mode : String) (orig : OriginalSettings)
    (hlyr : pyIn "lyrics" (pyLower mode) = true)
    (h1 : pyLower mode ≠ "album art only")
    (h2 : pyLower mode ≠ "lyrics only") :
    (applyDisplayModeSettings orig mode).pixoo_show_lyrics = true ∧
    ((applyDisplayModeSettings orig "Album Art Only").pixoo_show_lyrics = false ∧
     (applyDisplayModeSettings orig "Album Art Only").pixoo_show_clock = false ∧
     (applyDisplayModeSettings orig "Album Art Only").pixoo_temperature_enabled = false ∧
     (applyDisplayModeSettings orig "Album Art Only").pixoo_show_text_enabled = false ∧
     (applyDisplayModeSettings orig "Album Art Only").pixoo_text_background_enabled = false ∧
     (applyDisplayModeSettings orig "Album Art Only").pixoo_special_mode = false ∧
     (applyDisplayModeSettings orig "Album Art Only").pixoo_spotify_slide = false ∧
     (applyDisplayModeSettings orig "Album Art Only").pixoo_burned = false ∧
     (applyDisplayModeSettings orig "Album Art Only").force_ai = false) := by
  constructor
  · rw [show_lyrics_eq]
    have hd : pyLower mode ≠ "default" := by
      intro h
      rw [h] at hlyr
      exact absurd hlyr (by decide)
    rw [if_neg hd, if_neg h1, if_neg h2, hlyr]
  · exact ⟨rfl, rfl, rfl, rfl, rfl, rfl, rfl, rfl, rfl⟩

/-- Witness for `lyrics_keyword_and_album_art_only` at the mode string
`"Lyrics | Clock"`. -/
theorem lyrics_keyword_and_album_art_only_witness :
    (applyDisplayModeSettings
        ⟨false, false, false, false, false, false, true, false, "turbo", false⟩
        "Lyrics | Clock").pixoo_show_lyrics = true :=
  (lyrics_keyword_and_album_art_only "Lyrics | Clock"
      ⟨false, false, false, false, false, false, true, false, "turbo", false⟩
      (by decide) (by decide) (by decide)).1

/-- Counterexample to C2: in `"Default"` mode the flags are **not** copied
verbatim from the originals for every assignment — if the originals enable the
text background but no clock, temperature or item-list text, the post-condition
of `_apply_display_mode_settings` clears `pixoo_text_background_enabled`. -/
theorem default_mode_not_verbatim_counterexample :
    (applyDisplayModeSettings
        ⟨false, false, false, false, false, false, true, false, "turbo", false⟩
        "Default").pixoo_text_background_enabled ≠
      (OriginalSettings.original_pixoo_text_background_enabled
        ⟨false, false, false, false, false, false, true, false, "turbo", false⟩) := by
  decide

/-- C2 (amended): in `"Default"` mode every flag is copied verbatim from the
persisted originals, **except** `pixoo_text_background_enabled`, which is the
original value guarded by clock, temperature, or item-list text being active in
the originals. -/
theorem default_mode_copies_originals
    (orig : OriginalSettings) :
    (applyDisplayModeSettings orig "Default").pixoo_show_lyrics
        = orig.original_pixoo_show_lyrics ∧
    (applyDisplayModeSettings orig "Default").pixoo_spotify_slide
        = orig.original_pixoo_spotify_slide ∧
    (applyDisplayModeSettings orig "Default").pixoo_special_mode
        = orig.original_pixoo_special_mode ∧
    (applyDisplayModeSettings orig "Default").pixoo_show_clock
        = orig.original_pixoo_show_clock ∧
    (applyDisplayModeSettings orig "Default").pixoo_temperature_enabled
        = orig.original_pixoo_temperature_enabled ∧
    (applyDisplayModeSettings orig "Default").pixoo_show_text_enabled
        = orig.original_pixoo_show_text_enabled ∧
    (applyDisplayModeSettings orig "Default").force_ai
        = orig.original_force_ai ∧
    (applyDisplayModeSettings orig "Default").ai_fallback_model
        = orig.original_ai_fallback_model ∧
    (applyDisplayModeSettings orig "Default").pixoo_burned
        = orig.original_pixoo_burned ∧
    (applyDisplayModeSettings orig "Default").pixoo_text_background_enabled
        = (orig.original_pixoo_text_background_enabled &&
            (orig.original_pixoo_show_clock || orig.original_pixoo_temperature_enabled ||
              orig.original_pixoo_show_text_enabled)) := by
  obtain ⟨l, sl, sp, c, t, tx, bg, fai, model, b⟩ := orig
  cases c <;> cases t <;> cases tx <;> cases bg <;>
    simp [applyDisplayModeSettings, show pyLower "Default" = "default" from by decide]

/-! ## `LyricsProvider.calculate_position` (lyrics_provider.py, lines 109-134) -/

/-- Models the sync-offset normalisation of `calculate_position`
(lyrics_provider.py, lines 120-121): the configured offset is used as-is,
except that the sentinel `-1` means "no offset". -/
def effectiveSyncOffset (pixoo_lyrics_sync : Int) : Int :=
  if pixoo_lyrics_sync = -1 then 0 else pixoo_lyrics_sync

/-- Embeds the lyric-selection loop of `calculate_position`
(lyrics_provider.py, lines 127-134): scan the `(time_ms, text)` tuples in
order, remember the last line whose `time_ms + offset ≤ position`, and stop at
the first line whose adjusted time exceeds the position (the loop's `break`).
Returns the remembered tuple, `none` when no line qualified. -/
def selectLyric (offset position : Int) : List (Int × String) → Option (Int × String)
  | [] => none
  | (t, s) :: rest =>
      if t + offset ≤ position then
        match selectLyric offset position rest with
        | some r => some r
        | none => some (t, s)
      else none

/-- The tail of a `::` list always has a last element. -/
theorem getLast?_cons_ne_none {α : Type} (b : α) (bt : List α) :
    (b :: bt).getLast? ≠ none := by
  induction bt generalizing b with
  | nil => simp
  | cons c ct ih => rw [List.getLast?_cons_cons]; exact ih c

/-- The selection loop returns the last qualifying lyric of a list whose
timestamps are in order. -/
theorem selectLyric_eq_filter_getLast (off pos : Int) :
    ∀ l : List (Int × String), l.Pairwise (fun a b => a.1 ≤ b.1) →
      selectLyric off pos l = (l.filter fun p => decide (p.1 + off ≤ pos)).getLast?
  | [], _ => rfl
  | (t, s) :: rest, h => by
      rw [List.pairwise_cons] at h
      have ih := selectLyric_eq_filter_getLast off pos rest h.2
      by_cases ht : t + off ≤ pos
      · simp only [selectLyric, if_pos ht, List.filter_cons, decide_eq_true ht]
        cases hrest : selectLyric off pos rest with
        | none =>
            rw [hrest] at ih
            cases hfl : rest.filter fun p => decide (p.1 + off ≤ pos) with
            | nil => simp
            | cons b bt =>
                rw [hfl] at ih
                exact absurd ih.symm (getLast?_cons_ne_none b bt)
        | some r =>
            rw [hrest] at ih
            cases hfl : rest.filter fun p => decide (p.1 + off ≤ pos) with
            | nil => rw [hfl] at ih; simp at ih
            | cons b bt =>
                rw [hfl] at ih
                simp only [List.getLast?_cons_cons]
                exact ih
      · have hfr : (rest.filter fun p => decide (p.1 + off ≤ pos)) = [] := by
          rw [List.filter_eq_nil_iff]
          intro a ha
          have := h.1 a ha
          simp only [decide_eq_true_eq]
          omega
        simp only [selectLyric, if_neg ht, List.filter_cons,
          decide_eq_false ht, hfr]
        rfl

/-- C3: lyric-line selection picks the last lyric (in timestamp order) whose
adjusted time `timestamp + offset` is at most the playback position; on the
sequence `[(0,"a"),(5000,"b"),(9000,"c")]` with offset `0`, positions
4999/5000/8999/20000 select "a"/"b"/"b"/"c"; and the sentinel offset `-1` is
treated as offset `0`. -/
theorem calculate_position_selection
    (lyrics : List (Int × String)) (off pos : Int)
    (hsorted : lyrics.Pairwise fun a b => a.1 ≤ b.1) :
    selectLyric off pos lyrics
        = (lyrics.filter fun p => decide (p.1 + off ≤ pos)).getLast? ∧
    effectiveSyncOffset (-1) = 0 ∧
    selectLyric 0 4999 [(0, "a"), (5000, "b"), (9000, "c")] = some (0, "a") ∧
    selectLyric 0 5000 [(0, "a"), (5000, "b"), (9000, "c")] = some (5000, "b") ∧
    selectLyric 0 8999 [(0, "a"), (5000, "b"), (9000, "c")] = some (5000, "b") ∧
    selectLyric 0 20000 [(0, "a"), (5000, "b"), (9000, "c")] = some (9000, "c") :=
  ⟨selectLyric_eq_filter_getLast off pos lyrics hsorted, by decide, by decide,
    by decide, by decide, by decide⟩

/-- Witness for `calculate_position_selection` on the spec's concrete lyric
sequence. -/
theorem calculate_position_selection_witness :
    selectLyric 0 5000 [((0 : Int), "a"), (5000, "b"), (9000, "c")]
      = ([((0 : Int), "a"), (5000, "b"), (9000, "c")].filter
          fun p => decide (p.1 + 0 ≤ 5000)).getLast? :=
  (calculate_position_selection [(0, "a"), (5000, "b"), (9000, "c")] 0 5000
    (by decide)).1

/-! ## `LyricsProvider.create_lyrics_payloads` (lyrics_provider.py, lines 187-282) -/

/-- A device command payload built by `create_lyrics_payloads`: the clear-text
command prepended at line 192, or a `Draw/SendHttpText` line payload as
assembled at lines 245-257. -/
inductive PixooCommand where
  | clearText
  | sendText (textId : String) (x y : Nat) (font : Int) (textString color : String)
  deriving Repr, DecidableEq

/-- Embeds `has_bidi` (helpers.py, lines 163-169): true when the text contains
a character of one of the right-to-left Unicode ranges of the regex. -/
def has_bidi (s : String) : Bool :=
  s.data.any fun c => decide (
    (0x590 ≤ c.toNat ∧ c.toNat ≤ 0x5FF) ∨ (0x600 ≤ c.toNat ∧ c.toNat ≤ 0x6FF) ∨
    (0x750 ≤ c.toNat ∧ c.toNat ≤ 0x77F) ∨ (0x8A0 ≤ c.toNat ∧ c.toNat ≤ 0x8FF) ∨
    (0xFB1D ≤ c.toNat ∧ c.toNat ≤ 0xFDFF) ∨ (0xFE70 ≤ c.toNat ∧ c.toNat ≤ 0xFEFF))

/-- Helper for `pySplitSpace`. -/
def splitOnSpaceAux : List Char → List Char → List String
  | [], acc => [String.mk acc.reverse]
  | ' ' :: rest, acc => String.mk acc.reverse :: splitOnSpaceAux rest []
  | c :: rest, acc => splitOnSpaceAux rest (c :: acc)

/-- Models Python `text.split(' ')` (split on every single space, keeping
empty pieces; `"".split(' ') == [""]`). -/
def pySplitSpace (s : String) : List String :=
  splitOnSpaceAux s.data []

/-- Models Python `str.strip()` (for the ASCII whitespace the lyrics texts
contain): drop whitespace from both ends. -/
def pyStrip (s : String) : String :=
  String.mk
    (((s.data.dropWhile Char.isWhitespace).reverse.dropWhile Char.isWhitespace).reverse)

/-- The mutable state of the word-wrapping loop of `create_lyrics_payloads`
(lyrics_provider.py, lines 203-206). -/
structure WrapState where
  line1 : String
  current_len_line1 : Nat
  line2 : String
  current_len_line2 : Nat
  deriving Repr, DecidableEq

/-- Embeds the word loop of `create_lyrics_payloads` (lyrics_provider.py,
lines 207-220), including its quirk that the post-append length increment
re-tests the truthiness of the *updated* line, and the `break` once a word
overflows line 2. -/
def wrapWords (max_chars : Nat) : List String → WrapState → WrapState
  | [], st => st
  | w :: rest, st =>
      let word_len := w.length
      if st.current_len_line1 + word_len + (if st.line1 ≠ "" then 1 else 0) ≤ max_chars then
        let line1' := st.line1 ++ (if st.line1 ≠ "" then " " else "") ++ w
        wrapWords max_chars rest
          { st with line1 := line1'
                    current_len_line1 := st.current_len_line1 + word_len +
                      (if line1' ≠ "" then 1 else 0) }
      else if st.current_len_line2 + word_len + (if st.line2 ≠ "" then 1 else 0) ≤ max_chars then
        let line2' := st.line2 ++ (if st.line2 ≠ "" then " " else "") ++ w
        wrapWords max_chars rest
          { st with line2 := line2'
                    current_len_line2 := st.current_len_line2 + word_len +
                      (if line2' ≠ "" then 1 else 0) }
      else
        let line2' := st.line2 ++ (if st.line2 ≠ "" then " " else "") ++ w
        { st with line2 := line2'
                  current_len_line2 := st.current_len_line2 + word_len +
                    (if line2' ≠ "" then 1 else 0) }

/-- Embeds `LyricsProvider.create_lyrics_payloads` (lyrics_provider.py,
lines 187-282).  `get_bidi` is the external bidi library call, passed as a
function.  The fallible Python body is modelled as `Except`:

* `payload_list` starts with the clear-text command (line 192);
* the font's character budget comes from the `char_limits` table (line 199),
  with `.get` default 10;
* the line-emission loop (lines 236-275) appends each payload to the name
  `payloads`, which is **not defined anywhere in the function** (the list
  built at line 192 is `payload_list`); so the first non-empty display line
  raises `NameError`, and only a text with no displayable line returns the
  bare `[clearText]` list. -/
def create_lyrics_payloads (font_choice : Int) (get_bidi : String → String)
    (text : String) : Except String (List PixooCommand) :=
  let payload_list : List PixooCommand := [.clearText]
  let text := if has_bidi text then get_bidi text else text
  let char_limits : List (Int × Nat) :=
    [(2, 12), (4, 10), (32, 12), (52, 10), (58, 8), (62, 7), (48, 12), (80, 10),
     (158, 8), (186, 7), (190, 10), (590, 8)]
  let max_chars := (char_limits.lookup font_choice).getD 10
  let words := pySplitSpace text
  let st := wrapWords max_chars words ⟨"", 0, "", 0⟩
  let display_lines :=
    [pyStrip st.line1] ++ (if pyStrip st.line2 ≠ "" then [pyStrip st.line2] else [])
  if display_lines.all (fun l => l = "") then .ok payload_list
  else .error "NameError: name payloads is not defined"

/-- C4 fails on the code: for the non-empty lyric text `"hello"`,
`create_lyrics_payloads` raises `NameError` (it appends to the undefined name
`payloads`; the list it built is `payload_list`), instead of returning the
clear-command-plus-lines list; only texts with no displayable line (e.g. a
single space) return without raising. -/
theorem create_lyrics_payloads_raises_name_error :
    create_lyrics_payloads 190 id "hello"
        = .error "NameError: name payloads is not defined" ∧
    create_lyrics_payloads 190 id " " = .ok [PixooCommand.clearText] := by
  constructor <;> rfl

/-! ## `hex_to_rgb_list` / `rgb_to_hex` (helpers.py, lines 29-59)

Python's `int(s, 16)` accepts, besides plain hex digits, a leading sign and
surrounding whitespace; `hex_to_rgb_list` feeds it 2-character slices, so we
model `int(·, 16)` on 2-character ASCII strings exactly (the Unicode-digit
forms `int` also accepts never consist of ASCII slices of a hex string). -/

/-- Value of a character as a hexadecimal digit (`0-9`, `a-f`, `A-F`),
as accepted by Python `int(·, 16)`. -/
def hexVal (c : Char) : Option Nat :=
  if 48 ≤ c.toNat ∧ c.toNat ≤ 57 then some (c.toNat - 48)
  else if 97 ≤ c.toNat ∧ c.toNat ≤ 102 then some (c.toNat - 87)
  else if 65 ≤ c.toNat ∧ c.toNat ≤ 70 then some (c.toNat - 55)
  else none

/-- ASCII whitespace stripped by Python `int`. -/
def isPySpace (c : Char) : Bool :=
  c = ' ' ∨ c = '\t' ∨ c = '\n' ∨ c = '\r' ∨ c = Char.ofNat 11 ∨ c = Char.ofNat 12

/-- Models Python `int(s, 16)` on a 2-character ASCII string: two hex digits,
or a sign/whitespace character next to one hex digit; everything else raises
`ValueError` (modelled as `none`). -/
def pyIntHex2 (s : List Char) : Option Int :=
  match s with
  | [c1, c2] =>
      match hexVal c1, hexVal c2 with
      | some v1, some v2 => some (16 * (v1 : Int) + v2)
      | _, _ =>
          if c1 = '+' then (hexVal c2).map fun v => (v : Int)
          else if c1 = '-' then (hexVal c2).map fun v => -(v : Int)
          else if isPySpace c1 then (hexVal c2).map fun v => (v : Int)
          else if isPySpace c2 then (hexVal c1).map fun v => (v : Int)
          else none
  | _ => none

/-- Models Python `s.startswith("#")`. -/
def pyStartsWithHash (s : String) : Bool :=
  match s.data with
  | [] => false
  | c :: _ => c = '#'

/-- Embeds `hex_to_rgb_list` (helpers.py, lines 29-44): `None` or a string
without a leading `"#"` gives `[0,0,0]`; otherwise all leading `#` are
stripped (`lstrip("#")`), a 6-character remainder is parsed as three
2-character `int(·,16)` slices, a 3-character remainder as three doubled
characters, and any parse failure or other length gives `[0,0,0]`. -/
def hex_to_rgb_list : Option String → List Int
  | none => [0, 0, 0]
  | some hex_string =>
      if hex_string.data.isEmpty ∨ pyStartsWithHash hex_string = false then [0, 0, 0]
      else
        let hex_color := hex_string.data.dropWhile (· = '#')
        if hex_color.length = 6 then
          match pyIntHex2 (hex_color.take 2), pyIntHex2 ((hex_color.drop 2).take 2),
              pyIntHex2 (hex_color.drop 4) with
          | some r, some g, some b => [r, g, b]
          | _, _, _ => [0, 0, 0]
        else if hex_color.length = 3 then
          match hex_color with
          | [a, b, c] =>
              match pyIntHex2 [a, a], pyIntHex2 [b, b], pyIntHex2 [c, c] with
              | some r, some g, some b => [r, g, b]
              | _, _, _ => [0, 0, 0]
          | _ => [0, 0, 0]
        else [0, 0, 0]

/-- A Python value passed to `rgb_to_hex`: a tuple or a list of numbers (the
`isinstance(rgb_tuple, tuple)` check at helpers.py line 48 distinguishes the
two). -/
inductive PyRGBArg where
  | tup (xs : List Int)
  | lst (xs : List Int)
  deriving Repr, DecidableEq

/-- One lowercase hexadecimal digit, as produced by Python `"{:02x}".format`. -/
def hexDigitChar (n : Nat) : Char :=
  Char.ofNat (if n < 10 then 48 + n else 87 + n)

/-- Two lowercase hex digits for a byte value, Python `"{:02x}".format(n)`
for `0 ≤ n ≤ 255`. -/
def formatHexByte (n : Nat) : List Char :=
  [hexDigitChar (n / 16), hexDigitChar (n % 16)]

/-- The clamp `max(0, min(x, 255))` of helpers.py lines 53-55. -/
def pyClamp255 (x : Int) : Int :=
  max 0 (min x 255)

/-- Embeds `rgb_to_hex` (helpers.py, lines 46-59): anything that is not a
3-element tuple yields `"#000000"`; a 3-tuple is clamped per channel and
formatted as `"#%02x%02x%02x"`. -/
def rgb_to_hex : PyRGBArg → String
  | .tup [r, g, b] =>
      String.mk ('#' :: (formatHexByte (pyClamp255 r).toNat ++
        formatHexByte (pyClamp255 g).toNat ++ formatHexByte (pyClamp255 b).toNat))
  | _ => "#000000"

/-- A valid 6-digit hex colour string: `"#"` followed by six hex digits. -/
def isValidHex6 (h : String) : Bool :=
  match h.data with
  | [] => false
  | c :: cs => c = '#' && cs.length = 6 && cs.all fun d => (hexVal d).isSome

example : hex_to_rgb_list (some "#123456") = [18, 52, 86] := by decide
example : hex_to_rgb_list (some "#abc") = [170, 187, 204] := by decide
example : hex_to_rgb_list (some "#ZZZZZZ") = [0, 0, 0] := by decide
example : hex_to_rgb_list (some "123456") = [0, 0, 0] := by decide
example : rgb_to_hex (.tup [256, -1, 1000]) = "#ff00ff" := by decide
example : rgb_to_hex (.lst [255, 0, 0]) = "#000000" := by decide

/-- Formatting a hex-digit value gives back the lowercased digit character. -/
theorem hexDigitChar_pyToLower {c : Char} {v : Nat} (h : hexVal c = some v) :
    hexDigitChar v = pyToLower c ∧ v ≤ 15 := by
  unfold hexVal at h
  unfold hexDigitChar pyToLower
  split_ifs at h with h1 h2 h3
  · obtain rfl := Option.some.inj h
    refine ⟨?_, by omega⟩
    rw [if_pos (by omega), if_neg (by omega),
      show 48 + (c.toNat - 48) = c.toNat from by omega, Char.ofNat_toNat]
  · obtain rfl := Option.some.inj h
    refine ⟨?_, by omega⟩
    rw [if_neg (by omega), if_neg (by omega),
      show 87 + (c.toNat - 87) = c.toNat from by omega, Char.ofNat_toNat]
  · obtain rfl := Option.some.inj h
    refine ⟨?_, by omega⟩
    rw [if_neg (by omega), if_pos (by omega),
      show 87 + (c.toNat - 55) = c.toNat + 32 from by omega]

/-- Two valid hex digits parse under `int(·,16)` to their place value. -/
theorem pyIntHex2_pair {c1 c2 : Char} {v1 v2 : Nat}
    (h1 : hexVal c1 = some v1) (h2 : hexVal c2 = some v2) :
    pyIntHex2 [c1, c2] = some (16 * (v1 : Int) + v2) := by
  simp [pyIntHex2, h1, h2]

/-- Clamping a byte value in range is the identity. -/
theorem pyClamp255_toNat {v1 v2 : Nat} (h1 : v1 ≤ 15) (h2 : v2 ≤ 15) :
    (pyClamp255 (16 * (v1 : Int) + v2)).toNat = 16 * v1 + v2 := by
  unfold pyClamp255
  rw [max_def, min_def]
  split_ifs <;> omega

/-- The byte of two hex digits formats back to the two lowercased digits. -/
theorem formatHexByte_pair {c1 c2 : Char} {v1 v2 : Nat}
    (h1 : hexVal c1 = some v1) (h2 : hexVal c2 = some v2) :
    formatHexByte (16 * v1 + v2) = [pyToLower c1, pyToLower c2] := by
  obtain ⟨e1, b1⟩ := hexDigitChar_pyToLower h1
  obtain ⟨e2, b2⟩ := hexDigitChar_pyToLower h2
  unfold formatHexByte
  rw [show (16 * v1 + v2) / 16 = v1 by omega, show (16 * v1 + v2) % 16 = v2 by omega,
    e1, e2]

/-- A hex digit is not the `#` character. -/
theorem hexVal_ne_hash {c : Char} (h : (hexVal c).isSome) : ¬(c = '#') := by
  intro hc
  subst hc
  exact absurd h (by decide)

/-- Counterexample to C5 as stated: the literal composition
`rgb_to_hex(hex_to_rgb_list(h))` hands `rgb_to_hex` a Python *list*, which its
`isinstance(…, tuple)` guard rejects, so the round-trip gives `"#000000"`,
not `h.lower()`; moreover `int(·,16)` accepts signs, so the 6-character
non-hex string `"#+1+2+3"` yields `[1,2,3]`, not `[0,0,0]`. -/
theorem hex_roundtrip_counterexample :
    rgb_to_hex (.lst (hex_to_rgb_list (some "#123456"))) ≠ pyLower "#123456" ∧
    hex_to_rgb_list (some "#+1+2+3") ≠ [0, 0, 0] := by
  constructor <;> decide

/-- C5 (amended): for every valid 6-digit hex colour string, converting the
parsed channels back **as a tuple** round-trips to the lowercased input;
`None`, strings without a leading `"#"`, wrong lengths after `#`-stripping,
and 6-character bodies with an unparseable 2-character slice give `[0,0,0]`;
any non-tuple or wrongly sized argument to `rgb_to_hex` gives `"#000000"`;
and both functions are total (never throw). -/
theorem hex_rgb_roundtrip (h : String) (hvalid : isValidHex6 h = true) :
    rgb_to_hex (.tup (hex_to_rgb_list (some h))) = pyLower h ∧
    hex_to_rgb_list none = [0, 0, 0] ∧
    (∀ s : String, pyStartsWithHash s = false → hex_to_rgb_list (some s) = [0, 0, 0]) ∧
    (∀ s : String,
      (s.data.dropWhile (· = '#')).length ≠ 6 →
      (s.data.dropWhile (· = '#')).length ≠ 3 →
      hex_to_rgb_list (some s) = [0, 0, 0]) ∧
    (∀ xs : List Int, rgb_to_hex (.lst xs) = "#000000") ∧
    (∀ r g : Int, rgb_to_hex (.tup [r, g]) = "#000000") := by
  refine ⟨?_, rfl, ?_, ?_, fun xs => by cases xs <;> rfl, fun r g => rfl⟩
  · -- the round-trip on a valid "#xxxxxx" string
    obtain ⟨l⟩ := h
    unfold isValidHex6 at hvalid
    rcases l with _ | ⟨c0, cs⟩
    · simp at hvalid
    simp only [Bool.and_eq_true, decide_eq_true_eq, List.all_eq_true] at hvalid
    obtain ⟨⟨hc0, hlen⟩, hall⟩ := hvalid
    subst hc0
    rcases cs with _ | ⟨a, cs⟩
    · exact absurd hlen (by simp)
    rcases cs with _ | ⟨b, cs⟩
    · exact absurd hlen (by simp)
    rcases cs with _ | ⟨c, cs⟩
    · exact absurd hlen (by simp)
    rcases cs with _ | ⟨d, cs⟩
    · exact absurd hlen (by simp)
    rcases cs with _ | ⟨e, cs⟩
    · exact absurd hlen (by simp)
    rcases cs with _ | ⟨f, cs⟩
    · exact absurd hlen (by simp)
    rcases cs with _ | ⟨g, t⟩
    swap
    · exact absurd hlen (by simp)
    obtain ⟨va, hva⟩ := Option.isSome_iff_exists.mp (hall a (by simp))
    obtain ⟨vb, hvb⟩ := Option.isSome_iff_exists.mp (hall b (by simp))
    obtain ⟨vc, hvc⟩ := Option.isSome_iff_exists.mp (hall c (by simp))
    obtain ⟨vd, hvd⟩ := Option.isSome_iff_exists.mp (hall d (by simp))
    obtain ⟨ve, hve⟩ := Option.isSome_iff_exists.mp (hall e (by simp))
    obtain ⟨vf, hvf⟩ := Option.isSome_iff_exists.mp (hall f (by simp))
    have hane : ¬(a = '#') := hexVal_ne_hash (by rw [hva]; rfl)
    have hdrop : List.dropWhile (fun x => decide (x = '#')) ['#', a, b, c, d, e, f]
        = [a, b, c, d, e, f] := by
      simp [List.dropWhile_cons, hane]
    have hparsed :
        hex_to_rgb_list (some (String.mk ['#', a, b, c, d, e, f]))
          = [16 * (va : Int) + vb, 16 * (vc : Int) + vd, 16 * (ve : Int) + vf] := by
      simp only [hex_to_rgb_list]
      rw [if_neg (by simp [pyStartsWithHash])]
      rw [hdrop]
      rw [if_pos (by simp)]
      rw [show List.take 2 [a, b, c, d, e, f] = [a, b] from rfl,
        show List.take 2 (List.drop 2 [a, b, c, d, e, f]) = [c, d] from rfl,
        show List.drop 4 [a, b, c, d, e, f] = [e, f] from rfl]
      rw [pyIntHex2_pair hva hvb, pyIntHex2_pair hvc hvd, pyIntHex2_pair hve hvf]
    rw [hparsed]
    have hba := (hexDigitChar_pyToLower hva).2
    have hbb := (hexDigitChar_pyToLower hvb).2
    have hbc := (hexDigitChar_pyToLower hvc).2
    have hbd := (hexDigitChar_pyToLower hvd).2
    have hbe := (hexDigitChar_pyToLower hve).2
    have hbf := (hexDigitChar_pyToLower hvf).2
    show String.mk _ = pyLower _
    unfold pyLower
    rw [pyClamp255_toNat hba hbb, pyClamp255_toNat hbc hbd, pyClamp255_toNat hbe hbf,
      formatHexByte_pair hva hvb, formatHexByte_pair hvc hvd, formatHexByte_pair hve hvf]
    rfl
  · intro s hs
    simp only [hex_to_rgb_list]
    rw [if_pos (Or.inr hs)]
  · intro s h6 h3
    simp only [hex_to_rgb_list]
    by_cases hstart : s.data.isEmpty = true ∨ pyStartsWithHash s = false
    · rw [if_pos hstart]
    · rw [if_neg hstart, if_neg h6, if_neg h3]

/-- Witness for `hex_rgb_roundtrip` at the mixed-case string `"#1A2b3C"`. -/
theorem hex_rgb_roundtrip_witness :
    rgb_to_hex (.tup (hex_to_rgb_list (some "#1A2b3C"))) = pyLower "#1A2b3C" :=
  (hex_rgb_roundtrip "#1A2b3C" (by decide)).1

/-! ## `FallbackService.get_final_url` (fallback_service.py, lines 296-415)

The provider calls are network interactions; their outcomes are passed in as
an environment (`ProviderEnv`).  Each `get_*_image_url` helper is embedded
with its own credential/field guards. -/

/-- Python truthiness of an optional string: `None` and `""` are falsy. -/
def pyTruthy : Option String → Bool
  | none => false
  | some s => ¬(s = "")

/-- The configuration fields read by `FallbackService.get_final_url` and the
provider helpers (`Config`, config.py; empty credential strings are normalised
to `None` by `_fix_config_args`). -/
structure FallbackConfig where
  force_ai : Bool
  spotify_client_id : Option String
  spotify_client_secret : Option String
  discogs_api_token : Option String
  lastfm_api_key : Option String
  tidal_client_id : Option String
  tidal_client_secret : Option String
  musicbrainz_enabled : Bool
  ai_fallback_model : String
  pixoo_tv_icon_enabled : Bool
  pixoo_info_fallback : Bool
  deriving Repr, DecidableEq

/-- The media snapshot fields read by `get_final_url` (`MediaData`). -/
structure MediaSnapshot where
  artist : String
  title : String
  album : String
  cover_url : Option String
  current_mode : String
  ai_prompt : Option String
  deriving Repr, DecidableEq

/-- Outcomes of the external provider lookups (network responses and the
Spotify service's remembered artist/first-album images). -/
structure ProviderEnv where
  spotify_album_image : Option String
  discogs_album_image : Option String
  lastfm_album_image : Option String
  musicbrainz_album_image : Option String
  spotify_artist_image_url : Option String
  spotify_first_album_image_url : Option String
  deriving Repr, DecidableEq

/-- Embeds `get_spotify_album_image_url` (fallback_service.py, lines 62-81):
requires both Spotify credentials and artist+title, then returns whatever the
catalog search yielded. -/
def get_spotify_album_image_url (cfg : FallbackConfig) (media : MediaSnapshot)
    (env : ProviderEnv) : Option String :=
  if ¬ pyTruthy cfg.spotify_client_id ∨ ¬ pyTruthy cfg.spotify_client_secret then none
  else if media.artist = "" ∨ media.title = "" then none
  else env.spotify_album_image

/-- Embeds `get_lastfm_album_image_url` (fallback_service.py, lines 83-109). -/
def get_lastfm_album_image_url (cfg : FallbackConfig) (media : MediaSnapshot)
    (env : ProviderEnv) : Option String :=
  if ¬ pyTruthy cfg.lastfm_api_key then none
  else if media.artist = "" ∨ media.album = "" then none
  else env.lastfm_album_image

/-- Embeds `get_discogs_album_image_url` (fallback_service.py, lines 111-136). -/
def get_discogs_album_image_url (cfg : FallbackConfig) (media : MediaSnapshot)
    (env : ProviderEnv) : Option String :=
  if ¬ pyTruthy cfg.discogs_api_token then none
  else if media.artist = "" ∨ media.album = "" then none
  else env.discogs_album_image

/-- Embeds `get_musicbrainz_album_image_url` (fallback_service.py,
lines 138-167). -/
def get_musicbrainz_album_image_url (cfg : FallbackConfig) (media : MediaSnapshot)
    (env : ProviderEnv) : Option String :=
  if ¬ cfg.musicbrainz_enabled then none
  else if media.artist = "" ∨ media.album = "" then none
  else env.musicbrainz_album_image

/-- Embeds `get_tidal_album_image_url` (fallback_service.py, lines 169-177):
the placeholder always returns `None`. -/
def get_tidal_album_image_url (_cfg : FallbackConfig) (_media : MediaSnapshot) :
    Option String :=
  none

/-- One byte triple of the UTF-8 encoding of a character. -/
def utf8Bytes (c : Char) : List Nat :=
  let n := c.toNat
  if n < 0x80 then [n]
  else if n < 0x800 then [0xC0 + n / 0x40, 0x80 + n % 0x40]
  else if n < 0x10000 then
    [0xE0 + n / 0x1000, 0x80 + (n / 0x40) % 0x40, 0x80 + n % 0x40]
  else
    [0xF0 + n / 0x40000, 0x80 + (n / 0x1000) % 0x40, 0x80 + (n / 0x40) % 0x40,
      0x80 + n % 0x40]

/-- Characters `urllib.parse.quote` leaves unescaped with the default
`safe='/'`: ASCII letters, digits, `_.-~` and `/`. -/
def isQuoteSafe (c : Char) : Bool :=
  (65 ≤ c.toNat ∧ c.toNat ≤ 90) ∨ (97 ≤ c.toNat ∧ c.toNat ≤ 122) ∨
    (48 ≤ c.toNat ∧ c.toNat ≤ 57) ∨ c = '_' ∨ c = '.' ∨ c = '-' ∨ c = '~' ∨ c = '/'

/-- One uppercase hexadecimal digit, as in `urllib.parse.quote` escapes. -/
def hexDigitCharUpper (n : Nat) : Char :=
  Char.ofNat (if n < 10 then 48 + n else 55 + n)

/-- Models Python `urllib.parse.quote(s)`: percent-encode every unsafe
character's UTF-8 bytes with uppercase hex. -/
def pyQuote (s : String) : String :=
  String.mk (s.data.flatMap fun c =>
    if isQuoteSafe c then [c]
    else (utf8Bytes c).flatMap fun byte =>
      ['%', hexDigitCharUpper (byte / 16), hexDigitCharUpper (byte % 16)])

/-- Embeds `get_ai_pollinations_image_url` (fallback_service.py,
lines 180-234): with no prompt it returns `None`; otherwise it URL-encodes
the prompt into the Pollinations generative-image endpoint, with the model
from the config when it is `"turbo"`/`"flux"` and `"turbo"` otherwise. -/
def get_ai_pollinations_image_url (cfg : FallbackConfig) (media : MediaSnapshot) :
    Option String :=
  if ¬ pyTruthy media.ai_prompt then none
  else
    let prompt := media.ai_prompt.getD ""
    let model :=
      if cfg.ai_fallback_model = "turbo" ∨ cfg.ai_fallback_model = "flux" then
        cfg.ai_fallback_model
      else "turbo"
    some ("https://image.pollinations.ai/prompt/" ++ pyQuote prompt ++ "?model=" ++
      model ++ "&width=64&height=64&nologo=true")

/-- Stages 1-7 of the fallback chain of `get_final_url` (fallback_service.py,
lines 317-373), starting from the direct-URL value `final0`: each stage runs
only for music-classified media, only while no URL has been found, and only
with its credential/toggle present. -/
def catalogChain (cfg : FallbackConfig) (media : MediaSnapshot) (env : ProviderEnv)
    (final0 : Option String) : Option String :=
  let music := media.current_mode = "Music"
  -- 1. Spotify primary album match (lines 320-327)
  let f1 := if music ∧ ¬ pyTruthy final0 ∧
      pyTruthy cfg.spotify_client_id ∧ pyTruthy cfg.spotify_client_secret then
    get_spotify_album_image_url cfg media env else final0
  -- 2. Discogs (lines 330-335)
  let f2 := if ¬ pyTruthy f1 ∧ music ∧ pyTruthy cfg.discogs_api_token then
    get_discogs_album_image_url cfg media env else f1
  -- 3. Last.fm (lines 338-343)
  let f3 := if ¬ pyTruthy f2 ∧ music ∧ pyTruthy cfg.lastfm_api_key then
    get_lastfm_album_image_url cfg media env else f2
  -- 4. TIDAL placeholder (lines 346-351)
  let f4 := if ¬ pyTruthy f3 ∧ music ∧
      pyTruthy cfg.tidal_client_id ∧ pyTruthy cfg.tidal_client_secret then
    get_tidal_album_image_url cfg media else f3
  -- 5. MusicBrainz / Cover Art Archive (lines 354-359)
  let f5 := if ¬ pyTruthy f4 ∧ music ∧ cfg.musicbrainz_enabled then
    get_musicbrainz_album_image_url cfg media env else f4
  -- 6. Spotify artist image (lines 362-366)
  let f6 := if ¬ pyTruthy f5 ∧ music ∧ pyTruthy env.spotify_artist_image_url then
    env.spotify_artist_image_url else f5
  -- 7. Spotify first-album-match image (lines 369-373)
  if ¬ pyTruthy f6 ∧ music ∧ pyTruthy env.spotify_first_album_image_url then
    env.spotify_first_album_image_url else f6

/-- The result of `get_final_url`: either a URL for the image pipeline, or one
of the three "already sent" sentinel strings of lines 398, 405 and 409. -/
inductive FinalUrlResult where
  | url (s : String)
  | fallback_tv_icon_sent
  | fallback_info_text_sent
  | fallback_black_screen_sent
  deriving Repr, DecidableEq

/-- Embeds `FallbackService.get_final_url` (fallback_service.py,
lines 296-415), also reporting whether the AI image-generation stage
(lines 376-385) was attempted.  The direct cover URL is used unless AI is
forced (line 306); the fallback block runs when no URL was found or AI is
forced (line 313); the AI stage runs when AI is forced or no URL was found
and a prompt exists (line 377), and its result *overwrites* the URL found so
far; with no URL at the end, the TV-icon / info-text / black-screen fallbacks
are sent directly and a sentinel is returned (lines 388-409). -/
def get_final_url (cfg : FallbackConfig) (media : MediaSnapshot) (env : ProviderEnv) :
    FinalUrlResult × Bool :=
  let final0 : Option String :=
    if pyTruthy media.cover_url ∧ ¬ cfg.force_ai then media.cover_url else none
  let step :=
    if ¬ pyTruthy final0 ∨ cfg.force_ai then
      let f7 := catalogChain cfg media env final0
      let ai_attempted := cfg.force_ai || (!(pyTruthy f7) && pyTruthy media.ai_prompt)
      (if ai_attempted then get_ai_pollinations_image_url cfg media else f7, ai_attempted)
    else (final0, false)
  let final := step.1
  let ai_attempted := step.2
  if pyTruthy final then (.url (final.getD ""), ai_attempted)
  else if media.current_mode = "TV" ∧ cfg.pixoo_tv_icon_enabled then
    (.fallback_tv_icon_sent, ai_attempted)
  else if cfg.pixoo_info_fallback then (.fallback_info_text_sent, ai_attempted)
  else (.fallback_black_screen_sent, ai_attempted)

/-- The "earlier stages" value of the artwork resolution: the URL (if any)
found by the direct-URL stage and the catalog chain, before the AI stage. -/
def preAiUrl (cfg : FallbackConfig) (media : MediaSnapshot) (env : ProviderEnv) :
    Option String :=
  let final0 : Option String :=
    if pyTruthy media.cover_url ∧ ¬ cfg.force_ai then media.cover_url else none
  if ¬ pyTruthy final0 ∨ cfg.force_ai then catalogChain cfg media env final0
  else final0

/-- A Pollinations URL (which ends in the literal query tail) is a non-empty
string, hence truthy. -/
theorem pollinations_url_truthy (x : String) :
    pyTruthy (some (x ++ "&width=64&height=64&nologo=true")) = true := by
  have hne : (x ++ "&width=64&height=64&nologo=true") ≠ "" := by
    intro h
    have hl := congrArg String.length h
    rw [String.length_append] at hl
    have h31 : ("&width=64&height=64&nologo=true").length = 31 := by decide
    have h0 : ("" : String).length = 0 := by decide
    omega
  simp [pyTruthy, hne]

/-- Structural form of `get_final_url`: the fallback-block guard of line 313
is absorbed into `preAiUrl` (when the block is skipped, the direct URL is
truthy and AI is not forced, so the AI-attempt condition is false either way). -/
theorem get_final_url_eq (cfg : FallbackConfig) (media : MediaSnapshot)
    (env : ProviderEnv) :
    get_final_url cfg media env =
      (let pre := preAiUrl cfg media env
       let att := cfg.force_ai || (!(pyTruthy pre) && pyTruthy media.ai_prompt)
       let final := if att then get_ai_pollinations_image_url cfg media else pre
       ((if pyTruthy final then FinalUrlResult.url (final.getD "")
         else if media.current_mode = "TV" ∧ cfg.pixoo_tv_icon_enabled then
           FinalUrlResult.fallback_tv_icon_sent
         else if cfg.pixoo_info_fallback then FinalUrlResult.fallback_info_text_sent
         else FinalUrlResult.fallback_black_screen_sent), att)) := by
  unfold get_final_url preAiUrl
  split_ifs <;>
    simp_all [pyTruthy, not_or, Bool.not_eq_true, Bool.or_eq_true,
      Bool.and_eq_true, Bool.not_eq_true'] <;>
    split_ifs <;>
    simp_all

/-- C6: the AI image-generation stage of artwork resolution is attempted iff
AI is forced or no earlier stage produced a URL and the snapshot has a
non-empty AI prompt; when attempted with a prompt present, the overall result
is the URL-encoded Pollinations prompt URL (a URL for the image pipeline to
fetch, not raw bytes); in particular, in scenario B (no cover URL, no
provider credentials, catalog lookups empty, AI prompt present,
`force_ai=false`) the AI stage is attempted as the final stage and its URL is
returned. -/
theorem ai_stage_condition (cfg : FallbackConfig) (media : MediaSnapshot)
    (env : ProviderEnv)
    (hcover : pyTruthy media.cover_url = false)
    (hforce : cfg.force_ai = false)
    (hsp1 : pyTruthy cfg.spotify_client_id = false)
    (hdisc : pyTruthy cfg.discogs_api_token = false)
    (hlast : pyTruthy cfg.lastfm_api_key = false)
    (htid : pyTruthy cfg.tidal_client_id = false)
    (hmb : env.musicbrainz_album_image = none)
    (hart : env.spotify_artist_image_url = none)
    (hfirst : env.spotify_first_album_image_url = none)
    (hprompt : pyTruthy media.ai_prompt = true) :
    (∀ cfg' media' env',
      (get_final_url cfg' media' env').2 =
        (cfg'.force_ai ||
          (!(pyTruthy (preAiUrl cfg' media' env')) && pyTruthy media'.ai_prompt))) ∧
    (∀ cfg' media' env',
      (get_final_url cfg' media' env').2 = true →
      pyTruthy media'.ai_prompt = true →
      (get_final_url cfg' media' env').1 =
        .url ("https://image.pollinations.ai/prompt/" ++
          pyQuote (media'.ai_prompt.getD "") ++ "?model=" ++
          (if cfg'.ai_fallback_model = "turbo" ∨ cfg'.ai_fallback_model = "flux" then
            cfg'.ai_fallback_model else "turbo") ++
          "&width=64&height=64&nologo=true")) ∧
    (get_final_url cfg media env).2 = true ∧
    (get_final_url cfg media env).1 =
      .url ("https://image.pollinations.ai/prompt/" ++
        pyQuote (media.ai_prompt.getD "") ++ "?model=" ++
        (if cfg.ai_fallback_model = "turbo" ∨ cfg.ai_fallback_model = "flux" then
          cfg.ai_fallback_model else "turbo") ++
        "&width=64&height=64&nologo=true") := by
  have hsnd : ∀ cfg' media' env',
      (get_final_url cfg' media' env').2 =
        (cfg'.force_ai ||
          (!(pyTruthy (preAiUrl cfg' media' env')) && pyTruthy media'.ai_prompt)) := by
    intro cfg' media' env'
    rw [get_final_url_eq]
  have hfst : ∀ cfg' media' env',
      (get_final_url cfg' media' env').2 = true →
      pyTruthy media'.ai_prompt = true →
      (get_final_url cfg' media' env').1 =
        .url ("https://image.pollinations.ai/prompt/" ++
          pyQuote (media'.ai_prompt.getD "") ++ "?model=" ++
          (if cfg'.ai_fallback_model = "turbo" ∨ cfg'.ai_fallback_model = "flux" then
            cfg'.ai_fallback_model else "turbo") ++
          "&width=64&height=64&nologo=true") := by
    intro cfg' media' env' h2 hp
    have hai : get_ai_pollinations_image_url cfg' media' =
        some ("https://image.pollinations.ai/prompt/" ++
          pyQuote (media'.ai_prompt.getD "") ++ "?model=" ++
          (if cfg'.ai_fallback_model = "turbo" ∨ cfg'.ai_fallback_model = "flux" then
            cfg'.ai_fallback_model else "turbo") ++
          "&width=64&height=64&nologo=true") := by
      unfold get_ai_pollinations_image_url
      rw [if_neg (by simp [hp])]
    cases hatt : (cfg'.force_ai ||
        (!(pyTruthy (preAiUrl cfg' media' env')) && pyTruthy media'.ai_prompt)) with
    | false =>
        rw [hsnd cfg' media' env', hatt] at h2
        exact absurd h2 (by simp)
    | true =>
        rw [get_final_url_eq]
        simp only [hatt, if_true, hai, pollinations_url_truthy, Option.getD_some]
  have hpre : pyTruthy (preAiUrl cfg media env) = false := by
    unfold preAiUrl catalogChain
    simp [hcover, hforce, hsp1, hdisc, hlast, htid, hmb, hart, hfirst,
      get_musicbrainz_album_image_url, get_tidal_album_image_url,
      show pyTruthy none = false from rfl]
  have h2 : (get_final_url cfg media env).2 = true := by
    rw [hsnd cfg media env, hpre, hforce, hprompt]
    rfl
  exact ⟨hsnd, hfst, h2, hfst cfg media env h2 hprompt⟩

/-- Witness for `ai_stage_condition`: scenario B at concrete inputs. -/
theorem ai_stage_condition_witness :
    (get_final_url
        ⟨false, none, none, none, none, none, none, true, "turbo", false, false⟩
        ⟨"Artist", "Song", "Album", none, "Music", some "sunset art"⟩
        ⟨none, none, none, none, none, none⟩).2 = true ∧
    (get_final_url
        ⟨false, none, none, none, none, none, none, true, "turbo", false, false⟩
        ⟨"Artist", "Song", "Album", none, "Music", some "sunset art"⟩
        ⟨none, none, none, none, none, none⟩).1 =
      .url "https://image.pollinations.ai/prompt/sunset%20art?model=turbo&width=64&height=64&nologo=true" := by
  have h := ai_stage_condition
    ⟨false, none, none, none, none, none, none, true, "turbo", false, false⟩
    ⟨"Artist", "Song", "Album", none, "Music", some "sunset art"⟩
    ⟨none, none, none, none, none, none⟩
    (by decide) (by decide) (by decide) (by decide) (by decide) (by decide)
    (by decide) (by decide) (by decide) (by decide)
  refine ⟨h.2.2.1, ?_⟩
  rw [h.2.2.2]
  decide

/-! ## `ImageProcessor.get_image` (image.py, lines 268-317)

The cache `self._image_cache` is a Python `dict`, which preserves insertion
order; `next(iter(cache))` at line 313 is therefore the oldest key.  We model
it as an insertion-ordered association list (oldest first).  The network
fetch (`_fetch_image_data_from_url`) and the processing job
(`_process_image_data`) are external effects; their outcomes are passed in as
parameters. -/

/-- Embeds one call of `ImageProcessor.get_image` (image.py, lines 268-317)
against a cache state.  Returns the new cache and the Python return value:

* no URL (line 269) or a cache hit (line 299) leaves the cache unchanged;
* a failed fetch (line 304) or failed processing (line 311, the falsy check)
  leaves the cache unchanged and returns `none`;
* a successful processing pops the oldest entry when the cache already holds
  `pixoo_images_cache_size` or more entries (lines 312-313), then stores the
  new entry (line 314). -/
def get_image_step {V : Type} (pixoo_images_cache_size : Nat)
    (cache : List (String × V)) (image_url : Option String) (cache_key : String)
    (image_data_bytes : Option (List Nat)) (processed_image_dict : Option V) :
    List (String × V) × Option V :=
  if ¬ pyTruthy image_url then (cache, none)
  else
    match cache.lookup cache_key with
    | some cached => (cache, some cached)
    | none =>
        match image_data_bytes with
        | none => (cache, none)
        | some _ =>
            match processed_image_dict with
            | none => (cache, none)
            | some v =>
                let evicted :=
                  if pixoo_images_cache_size ≤ cache.length then cache.tail else cache
                (evicted ++ [(cache_key, v)], some v)

/-- A sequence of `get_image` calls (url, key, fetch outcome, processing
outcome) threaded through the cache. -/
def run_get_image_calls {V : Type} (pixoo_images_cache_size : Nat)
    (cache : List (String × V))
    (calls : List (Option String × String × Option (List Nat) × Option V)) :
    List (String × V) :=
  calls.foldl
    (fun c call =>
      (get_image_step pixoo_images_cache_size c call.1 call.2.1 call.2.2.1 call.2.2.2).1)
    cache

/-- One `get_image` call never grows the cache beyond the configured size. -/
theorem get_image_step_length {V : Type} (size : Nat) (hsize : 1 ≤ size)
    (cache : List (String × V)) (url : Option String) (key : String)
    (bytes : Option (List Nat)) (processed : Option V)
    (hle : cache.length ≤ size) :
    (get_image_step size cache url key bytes processed).1.length ≤ size := by
  unfold get_image_step
  by_cases h1 : ¬ pyTruthy url = true
  · rw [if_pos h1]
    exact hle
  · rw [if_neg h1]
    cases cache.lookup key with
    | some cached => exact hle
    | none =>
        cases bytes with
        | none => exact hle
        | some bs =>
            cases processed with
            | none => exact hle
            | some v =>
                by_cases h2 : size ≤ cache.length
                · rw [if_pos h2]
                  show (cache.tail ++ [(key, v)]).length ≤ size
                  rw [List.length_append]
                  have := List.length_tail cache
                  simp only [List.length_cons, List.length_nil]
                  omega
                · rw [if_neg h2]
                  show (cache ++ [(key, v)]).length ≤ size
                  rw [List.length_append]
                  simp only [List.length_cons, List.length_nil]
                  omega

/-- C7: the processed-image cache is bounded.  With the cache at or above the
configured capacity, a successful insertion of a new key first evicts the
earliest-inserted entry (the head of the insertion-ordered cache); and for
every sequence of `get_image` calls starting within capacity (capacity ≥ 1),
the number of cached entries never exceeds the capacity. -/
theorem cache_bounded_and_evicts_oldest {V : Type} (size : Nat) (hsize : 1 ≤ size)
    (cache : List (String × V)) (url : Option String) (key : String)
    (bytes : List Nat) (v : V)
    (calls : List (Option String × String × Option (List Nat) × Option V))
    (hurl : pyTruthy url = true)
    (hmiss : cache.lookup key = none)
    (hfull : size ≤ cache.length)
    (hstart : cache.length ≤ size) :
    (get_image_step size cache url key (some bytes) (some v)).1 =
      cache.tail ++ [(key, v)] ∧
    (run_get_image_calls size cache calls).length ≤ size := by
  constructor
  · unfold get_image_step
    rw [if_neg (by simp [hurl]), hmiss]
    simp [hfull]
  · clear hurl hmiss hfull
    induction calls generalizing cache with
    | nil => exact hstart
    | cons call rest ih =>
        unfold run_get_image_calls
        rw [List.foldl_cons]
        exact ih _ (get_image_step_length size hsize cache call.1 call.2.1
          call.2.2.1 call.2.2.2 hstart)

/-- Witness for `cache_bounded_and_evicts_oldest`: a full 2-entry cache
evicts its oldest entry `"k1"` on inserting `"k3"`. -/
theorem cache_bounded_and_evicts_oldest_witness :
    (get_image_step 2 [("k1", 10), ("k2", 20)] (some "http://a/art.png") "k3"
        (some [1, 2]) (some 30)).1 = [("k2", 20), ("k3", 30)] ∧
    (run_get_image_calls 2 [("k1", 10), ("k2", 20)]
        [(some "http://a/art.png", "k3", some [1, 2], some (30 : Nat))]).length ≤ 2 := by
  have h := cache_bounded_and_evicts_oldest 2 (by decide)
    [("k1", (10 : Nat)), ("k2", 20)] (some "http://a/art.png") "k3" [1, 2] 30
    [(some "http://a/art.png", "k3", some [1, 2], some 30)]
    (by decide) (by decide) (by decide) (by decide)
  exact ⟨by rw [h.1]; rfl, h.2⟩

/-- C10: `get_image` is atomic with respect to the cache on failure: on a
cache miss where the fetch returns no bytes or processing returns `None`,
the call returns `None}`, the cache is exactly the one before the call, and
the key is still absent (so a later call with the same key retries). -/
theorem get_image_failure_atomic {V : Type} (size : Nat)
    (cache : List (String × V)) (url : Option String) (key : String)
    (bytes : Option (List Nat)) (processed : Option V)
    (hmiss : cache.lookup key = none)
    (hfail : bytes = none ∨ processed = none) :
    get_image_step size cache url key bytes processed = (cache, none) ∧
    (get_image_step size cache url key bytes processed).1.lookup key = none := by
  have hstep : get_image_step size cache url key bytes processed = (cache, none) := by
    unfold get_image_step
    by_cases h1 : ¬ pyTruthy url = true
    · rw [if_pos h1]
    · rw [if_neg h1, hmiss]
      rcases hfail with hb | hp
      · rw [hb]
      · cases bytes with
        | none => rfl
        | some bs => rw [hp]
  exact ⟨hstep, by rw [hstep]; exact hmiss⟩

/-- Witness for `get_image_failure_atomic`: a failed processing run leaves a
one-entry cache untouched. -/
theorem get_image_failure_atomic_witness :
    get_image_step 25 [("k1", (10 : Nat))] (some "http://a/art.png") "k2"
        (some [1, 2]) none = ([("k1", 10)], none) :=
  (get_image_failure_atomic 25 [("k1", (10 : Nat))] (some "http://a/art.png") "k2"
    (some [1, 2]) none (by decide) (Or.inr rfl)).1

/-! ## Update orchestration and locking (`__init__.py`, lines 317-466)

The locking discipline is modelled as action traces of the orchestration
coroutines.  Each entry point yields the trace of atomic actions it runs
inline, plus the traces of tasks it schedules to run later on their own
(`async_call_later` + `hass.async_create_task`), which execute outside any
`async with` block of the scheduler. -/

/-- Atomic actions of the update orchestration. -/
inductive OrchestratorAction where
  | acquire_lock
  | release_lock
  | execute_display_update
  | schedule_off_timer
  | refresh_media
  | lights_off
  | clear_cache
  deriving Repr, DecidableEq

/-- Playback states distinguished by `_async_handle_media_player_update`. -/
inductive PlayerState where
  | off
  | idle
  | paused
  | standby
  | playing
  | on_state
  deriving Repr, DecidableEq

/-- The off-like states of line 357 (`["off", "idle", "paused", "standby"]`). -/
def isOffLike : PlayerState → Bool
  | .off => true
  | .idle => true
  | .paused => true
  | .standby => true
  | _ => false

/-- Embeds `_delayed_off_processing_task` (`__init__.py`, lines 360-373):
refresh the media snapshot, run the display-update sequence, turn lights
off.  It never acquires the lock itself. -/
def delayedOffProcessingActions : List OrchestratorAction :=
  [.refresh_media, .execute_display_update, .lights_off]

/-- Embeds `_async_handle_media_player_update` (`__init__.py`,
lines 330-398): for off-like states the delayed handler runs inline
(`delay_seconds = 0`) except for `"paused"`, where it is scheduled to run 5
seconds later via `async_call_later` + `hass.async_create_task`
(lines 375-383); otherwise the cache is flushed when coming out of an
off-like state and the display update runs inline (lines 388-398).  Returns
the inline action trace and the traces of the scheduled tasks. -/
def handleMediaPlayerUpdateActions (new_state : PlayerState) :
    List OrchestratorAction × List (List OrchestratorAction) :=
  if isOffLike new_state then
    if new_state = .paused then ([.schedule_off_timer], [delayedOffProcessingActions])
    else (delayedOffProcessingActions, [])
  else ([.clear_cache, .execute_display_update], [])

/-- Embeds `wrapped_event_handler` (`__init__.py`, lines 442-449): the
handler body runs under `async with display_update_lock`; tasks it merely
schedules escape that block. -/
def wrappedEventHandlerActions (new_state : PlayerState) :
    List OrchestratorAction × List (List OrchestratorAction) :=
  let handler := handleMediaPlayerUpdateActions new_state
  ([.acquire_lock] ++ handler.1 ++ [.release_lock], handler.2)

/-- Embeds `async_force_pixoo_update` (`__init__.py`, lines 317-327): the
display update runs under `async with display_update_lock`. -/
def forceUpdateActions : List OrchestratorAction × List (List OrchestratorAction) :=
  ([.acquire_lock, .execute_display_update, .release_lock], [])

/-- All traces an entry point gives rise to: its inline trace and each
scheduled task's trace (which starts with the lock not held). -/
def entryTraces (e : List OrchestratorAction × List (List OrchestratorAction)) :
    List (List OrchestratorAction) :=
  e.1 :: e.2

/-- Checks that every `execute_display_update` in a trace happens while the
lock is held (`d` counts currently held acquisitions). -/
def execsUnderLock : List OrchestratorAction → Nat → Bool
  | [], _ => true
  | .acquire_lock :: rest, d => execsUnderLock rest (d + 1)
  | .release_lock :: rest, d => execsUnderLock rest (d - 1)
  | .execute_display_update :: rest, d => decide (0 < d) && execsUnderLock rest d
  | _ :: rest, d => execsUnderLock rest d

/-- C8 fails on the code: event-triggered and force-triggered updates do run
the display-update sequence under the instance's update mutex, but the
delayed `"paused"` handler is spawned from the 5-second timer as a fresh task
that calls `_async_execute_display_update` without acquiring
`display_update_lock` — contradicting that function's own stated precondition
("Assumes display_update_lock is already acquired"). -/
theorem paused_debounce_escapes_lock :
    (∀ tr ∈ entryTraces (wrappedEventHandlerActions .playing),
      execsUnderLock tr 0 = true) ∧
    (∀ tr ∈ entryTraces (wrappedEventHandlerActions .off),
      execsUnderLock tr 0 = true) ∧
    (∀ tr ∈ entryTraces (wrappedEventHandlerActions .idle),
      execsUnderLock tr 0 = true) ∧
    (∀ tr ∈ entryTraces forceUpdateActions, execsUnderLock tr 0 = true) ∧
    delayedOffProcessingActions ∈ (wrappedEventHandlerActions .paused).2 ∧
    execsUnderLock delayedOffProcessingActions 0 = false := by
  decide

/-! ## Ambient-light brightness derivation (`__init__.py`, lines 224-227) -/

/-- Embeds the brightness-percent derivation of `_async_execute_display_update`
(`__init__.py`, lines 226-227):
`int((raw_brightness / 255) * 100)` followed by `max(10, min(100, ·))`.
For every integer `raw_brightness` in `0..255`, the Python float expression
`int((b / 255) * 100)` equals the integer floor `b * 100 / 255` (checked
exhaustively against IEEE double evaluation over all 256 inputs). -/
def image_brightness_for_light (raw_brightness : Nat) : Nat :=
  max 10 (min 100 (raw_brightness * 100 / 255))

/-- C9: for every processed-image brightness value `b` in `0..255`, the
derived ambient-light brightness percentage is `max(10, min(100, int((b/255)*100)))`
and always lies between 10 and 100 inclusive. -/
theorem brightness_pct_in_range (b : Nat) (_hb : b ≤ 255) :
    image_brightness_for_light b = max 10 (min 100 (b * 100 / 255)) ∧
    10 ≤ image_brightness_for_light b ∧ image_brightness_for_light b ≤ 100 := by
  refine ⟨rfl, ?_, ?_⟩ <;> unfold image_brightness_for_light <;> omega

/-- Witness for `brightness_pct_in_range` at brightness 255 (the maximum). -/
theorem brightness_pct_in_range_witness :
    image_brightness_for_light 255 = max 10 (min 100 (255 * 100 / 255)) ∧
    10 ≤ image_brightness_for_light 255 ∧ image_brightness_for_light 255 ≤ 100 :=
  brightness_pct_in_range 255 (by decide)

end Pixoo
